import Mathlib

/-!
# Verification of the puppeteer-cli orchestration layer

Shallow embedding of `src/index.js`: the option-translator functions
(`buildLaunchOptions`, `buildNavigationOptions`, `buildCookies`), the
viewport parser of the `screenshot` command, the per-entry PDF option
construction of `bulkPrint`, the PDF option construction of `print`,
and a trace semantics for the three command handlers (`print`,
`screenshot`, `bulkPrint`).  External collaborators (the puppeteer
engine, the `url-parse` / `file-url` / `is-url` libraries, the
filesystem) are represented by an explicit environment: each awaited
engine call either succeeds or raises, and every call the handler makes
is recorded as an `Action` in a trace, in program order.
-/

namespace PuppeteerCli

/-- JavaScript truthiness of an optional string value (`undefined` is
falsy, `""` is falsy, any other string is truthy).  Used for
`if (argv.cookie)`, `if (argv.viewport)`, `argv.output || null` and
`if (!argv.output)` in `src/index.js`. -/
def jsTruthyStr : Option String → Bool
  | none => false
  | some s => !(s == "")

/-- Model of `argv.output || null`: the JS `||` collapses both `undefined` and
`""` to `null`. -/
def jsOrNull (o : Option String) : Option String :=
  if jsTruthyStr o then o else none

/-- Result of `page.pdf(...)` / `page.screenshot(...)` margins object. -/
structure Margin where
  top : String
  right : String
  bottom : String
  left : String
deriving Repr, DecidableEq

/-- The options object handed to `page.pdf(...)` (lines 161-174 and
192-206 of `src/index.js`).  `headerTemplate` is optional because the
bulk-print call site omits the field. -/
structure PdfOptions where
  path : Option String
  format : String
  landscape : Bool
  printBackground : Bool
  margin : Margin
  displayHeaderFooter : Bool
  headerTemplate : Option String
  footerTemplate : String
deriving Repr, DecidableEq

/-- The options object handed to `page.screenshot(...)` (lines 240-244). -/
structure ScreenshotOptions where
  path : Option String
  fullPage : Bool
  omitBackground : Bool
deriving Repr, DecidableEq

/-- Browser launch options built by `buildLaunchOptions` (lines 253-263). -/
structure LaunchOptions where
  args : List String
deriving Repr, DecidableEq

/-- Navigation options built by `buildNavigationOptions` (lines 265-270). -/
structure NavigationOptions where
  timeout : Nat
  waitUntil : String
deriving Repr, DecidableEq

/-- A cookie descriptor as built by `buildCookies` (line 282). -/
structure Cookie where
  name : String
  value : String
  url : String
deriving Repr, DecidableEq

/-- Embeds `buildLaunchOptions({ sandbox })` (lines 253-263): when the
`sandbox` flag is `false`, push `--no-sandbox` and
`--disable-setuid-sandbox` onto the argument list. -/
def buildLaunchOptions (sandbox : Bool) : LaunchOptions :=
  { args := if sandbox = false then ["--no-sandbox", "--disable-setuid-sandbox"] else [] }

/-- Embeds `buildNavigationOptions({ timeout, waitUntil })` (lines 265-270):
a passthrough. -/
def buildNavigationOptions (timeout : Nat) (waitUntil : String) : NavigationOptions :=
  { timeout, waitUntil }

instance {ε α : Type} [DecidableEq ε] [DecidableEq α] : DecidableEq (Except ε α) := fun a b =>
  match a, b with
  | Except.ok x, Except.ok y =>
      if h : x = y then isTrue (by rw [h]) else isFalse (by intro hc; cases hc; exact h rfl)
  | Except.error x, Except.error y =>
      if h : x = y then isTrue (by rw [h]) else isFalse (by intro hc; cases hc; exact h rfl)
  | Except.ok _, Except.error _ => isFalse (by intro hc; cases hc)
  | Except.error _, Except.ok _ => isFalse (by intro hc; cases hc)

/-- Model of `String.prototype.indexOf` for a single character: index of the
first occurrence, or `none` (JS `-1`). -/
def jsIndexOf (c : Char) : List Char → Option Nat
  | [] => none
  | a :: as => if a = c then some 0 else (jsIndexOf c as).map (· + 1)

/-- Embeds `buildCookies({ url, cookie })` (lines 272-284): wrap the single
cookie string in a list, split each entry at the first `:`
(`substr(0, delimiterOffset)` / `substr(delimiterOffset + 1)`), throw
when no delimiter is present, and scope the cookie to `url` (the raw
`argv.url` target argument). -/
def buildCookies (url cookie : String) : Except String (List Cookie) :=
  [cookie].mapM fun cookieString =>
    match jsIndexOf ':' cookieString.data with
    | none => Except.error "cookie must contain : delimiter"
    | some delimiterOffset =>
        Except.ok { name := (cookieString.data.take delimiterOffset).asString,
                    value := (cookieString.data.drop (delimiterOffset + 1)).asString,
                    url := url }

/-- Decimal value of a digit string, as `parseInt` computes it on a
`\d+` match. -/
def digitsToNat (l : List Char) : Nat :=
  l.foldl (fun n c => 10 * n + (c.toNat - '0'.toNat)) 0

/-- The viewport regex `^(?<width>\d+)[xX](?<height>\d+)$` of line 221:
a non-empty run of decimal digits, one `x` or `X`, a non-empty run of
decimal digits, nothing else.  Returns the two `parseInt`ed groups on a
match and `none` otherwise. -/
def parseViewport (s : String) : Option (Nat × Nat) :=
  let w := s.data.takeWhile (·.isDigit)
  match s.data.dropWhile (·.isDigit) with
  | [] => none
  | sep :: h =>
      if (sep == 'x' || sep == 'X') && !w.isEmpty && !h.isEmpty && h.all (·.isDigit)
      then some (digitsToNat w, digitsToNat h)
      else none

/-- Parsed `argv` for `print <url> [output]` (command builder lines
67-107): the common options plus the print-specific flags, with yargs
camel-casing the kebab-case flag names. -/
structure PrintArgv where
  url : String
  output : Option String
  sandbox : Bool
  timeout : Nat
  waitUntil : String
  cookie : Option String
  background : Bool
  marginTop : String
  marginRight : String
  marginBottom : String
  marginLeft : String
  format : String
  landscape : Bool
  displayHeaderFooter : Bool
  headerTemplate : String
  footerTemplate : String
deriving Repr, DecidableEq

/-- Parsed `argv` for `screenshot <url> [output]` (command builder
lines 116-133). -/
structure ScreenshotArgv where
  url : String
  output : Option String
  sandbox : Bool
  timeout : Nat
  waitUntil : String
  cookie : Option String
  fullPage : Bool
  omitBackground : Bool
  viewport : Option String
deriving Repr, DecidableEq

/-- Parsed `argv` for `bulk-print <batchFile>` (command builder lines
34-57).  The `cookie` field is present because the builder spreads
`commonOptions`, even though `bulkPrint` never reads it. -/
structure BulkArgv where
  batchFile : String
  sandbox : Bool
  timeout : Nat
  waitUntil : String
  cookie : Option String
  background : Bool
  marginTop : String
  marginRight : String
  marginBottom : String
  marginLeft : String
  format : String
deriving Repr, DecidableEq

/-- The `pdfObject` field of a batch manifest entry. -/
structure PdfObject where
  isLandscape : Bool
  footerTemplate : String
  footerHeight : String
deriving Repr, DecidableEq

/-- One entry of the `data` array of the batch manifest JSON. -/
structure BatchEntry where
  htmlFile : String
  tmpPDFFile : String
  pdfObject : PdfObject
deriving Repr, DecidableEq

/-- Flag names accepted by `commonOptions` (lines 14-31). -/
def commonOptionNames : List String :=
  ["sandbox", "timeout", "wait-until", "cookie"]

/-- Flag names of the `bulk-print` command builder (lines 36-57):
the spread of `commonOptions` plus the bulk-specific flags. -/
def bulkPrintOptionNames : List String :=
  commonOptionNames ++
    ["background", "margin-top", "margin-right", "margin-bottom", "margin-left", "format"]

/-- The external URL helpers required at the top of `src/index.js`:
`is-url`, `url-parse` (composed with `.toString()`), and `file-url`.
The spec treats them as out-of-scope collaborators consumed through
their interfaces and assumed correct, so they enter the model as
abstract functions; the contracts the spec assigns them appear as
hypotheses of the theorems that need them. -/
structure UrlLib where
  isUrl : String → Bool
  parseUrlToString : String → String
  fileUrl : String → String

/-- Line 184 / line 218:
`isUrl(argv.url) ? parseUrl(argv.url).toString() : fileUrl(argv.url)`. -/
def resolveTarget (L : UrlLib) (t : String) : String :=
  if L.isUrl t then L.parseUrlToString t else L.fileUrl t

/-- Left-to-right global replacement of the two-character pattern
backslash-quote by a quote. -/
def unescapeQuotesAux : List Char → List Char
  | [] => []
  | '\\' :: '"' :: rest => '"' :: unescapeQuotesAux rest
  | c :: rest => c :: unescapeQuotesAux rest

/-- Model of the `new RegExp('\\\\\"', 'g')` replacement of line 173: every literal
backslash-quote pair in the manifest footer template becomes a plain
quote. -/
def unescapeQuotes (s : String) : String :=
  (unescapeQuotesAux s.data).asString

/-- The options object built for `page.pdf` inside the `bulkPrint`
loop (lines 160-174).  `printBackground` is the literal `true` of line
165; `displayFooter` is the JS truthiness of the entry's
`footerTemplate`; the call site has no `headerTemplate` field. -/
def bulkEntryPdfOptions (argv : BulkArgv) (pdf : BatchEntry) : PdfOptions :=
  let displayFooter := !(pdf.pdfObject.footerTemplate == "")
  { path := some pdf.tmpPDFFile
    format := argv.format
    landscape := pdf.pdfObject.isLandscape
    printBackground := true
    margin := { top := argv.marginTop
                right := argv.marginRight
                bottom := if displayFooter then pdf.pdfObject.footerHeight else argv.marginBottom
                left := argv.marginLeft }
    displayHeaderFooter := displayFooter
    headerTemplate := none
    footerTemplate := unescapeQuotes pdf.pdfObject.footerTemplate }

/-- The options object built for `page.pdf` inside `print`
(lines 192-206): every field comes straight from `argv`. -/
def printPdfOptions (argv : PrintArgv) : PdfOptions :=
  { path := jsOrNull argv.output
    format := argv.format
    landscape := argv.landscape
    printBackground := argv.background
    margin := { top := argv.marginTop
                right := argv.marginRight
                bottom := argv.marginBottom
                left := argv.marginLeft }
    displayHeaderFooter := argv.displayHeaderFooter
    headerTemplate := some argv.headerTemplate
    footerTemplate := argv.footerTemplate }

/-- The options object built for `page.screenshot` inside `screenshot`
(lines 240-244). -/
def screenshotOptions (argv : ScreenshotArgv) : ScreenshotOptions :=
  { path := jsOrNull argv.output
    fullPage := argv.fullPage
    omitBackground := argv.omitBackground }

/-- One observable call a command handler makes, in program order. -/
inductive Action where
  | launch (opts : LaunchOptions)
  | newPage
  | setViewport (width height : Nat)
  | setCookie (cookies : List Cookie)
  | goto (url : String) (nav : NavigationOptions)
  | pdf (opts : PdfOptions)
  | screenshotCap (opts : ScreenshotOptions)
  | writeStdout (buffer : Nat)
  | sleep (ms : Nat)
  | close
deriving Repr, DecidableEq

/-- How a handler run ends: normal return, a thrown error that
propagates to the dispatcher's `catch` (which logs and exits 1), or a
direct `process.exit(code)`. -/
inductive Outcome where
  | ok
  | error (msg : String)
  | exit (code : Nat)
deriving Repr, DecidableEq

/-- Resolution of the awaited external calls: whether the browser
launch, the navigation, the render (`page.pdf` / `page.screenshot`) and
the stdout write succeed, and the abstract identity of the byte buffer
a successful render returns. -/
structure Env where
  launchOk : Bool
  gotoOk : Bool
  renderOk : Bool
  writeOk : Bool
  buffer : Nat
deriving Repr, DecidableEq

/-- Discriminator for `Action.goto`, used to speak about the prefix of a
trace that precedes navigation. -/
def Action.isGoto : Action → Bool
  | Action.goto _ _ => true
  | _ => false

/-- The `if (argv.cookie) { await page.setCookie(...buildCookies(argv)) }`
step shared by `print` (lines 186-188) and `screenshot` (lines 234-236):
skipped when the flag is absent or empty, throwing when `buildCookies`
throws. -/
def cookieStep (url : String) (cookie : Option String) : Except String (List Action) :=
  if jsTruthyStr cookie then
    match buildCookies url (cookie.getD "") with
    | Except.error e => Except.error e
    | Except.ok cs => Except.ok [Action.setCookie cs]
  else Except.ok []

/-- Embeds `async function print(argv)` (lines 181-213) as a trace semantics:
launch, new page, optional cookie injection, navigation, `page.pdf`,
stdout write when no output path was given, then `browser.close()`.
Each awaited call either appends its `Action` or ends the run with the
thrown error; there is no `try`/`finally`, so an error skips everything
after it, `browser.close()` included. -/
def print (L : UrlLib) (env : Env) (argv : PrintArgv) : Outcome × List Action :=
  if !env.launchOk then (Outcome.error "launch failed", []) else
  let acts0 := [Action.launch (buildLaunchOptions argv.sandbox), Action.newPage]
  let url := resolveTarget L argv.url
  match cookieStep argv.url argv.cookie with
  | Except.error e => (Outcome.error e, acts0)
  | Except.ok cookieActs =>
    let acts1 := acts0 ++ cookieActs
    if !env.gotoOk then (Outcome.error "navigation failed", acts1) else
    let acts2 := acts1 ++ [Action.goto url (buildNavigationOptions argv.timeout argv.waitUntil)]
    if !env.renderOk then (Outcome.error "render failed", acts2) else
    let acts3 := acts2 ++ [Action.pdf (printPdfOptions argv)]
    if jsTruthyStr argv.output then (Outcome.ok, acts3 ++ [Action.close])
    else if !env.writeOk then (Outcome.error "stdout write failed", acts3)
    else (Outcome.ok, acts3 ++ [Action.writeStdout env.buffer, Action.close])

/-- The viewport block of `screenshot` (lines 220-232): skipped when
`argv.viewport` is falsy; `none` — standing for the direct
`process.exit(1)` of line 224 — when the regex fails; otherwise the
`page.setViewport` call with the two `parseInt`ed groups. -/
def viewportStep (viewport : Option String) : Option (List Action) :=
  if jsTruthyStr viewport then
    match parseViewport (viewport.getD "") with
    | none => none
    | some (w, h) => some [Action.setViewport w h]
  else some []

/-- Embeds `async function screenshot(argv)` (lines 215-251) as a trace
semantics.  The viewport block (lines 220-232) runs after launch and
`newPage`: a truthy `argv.viewport` that fails the regex hits
`process.exit(1)` directly — not a thrown error — so neither the cookie,
navigation, render, write steps nor `browser.close()` run. -/
def screenshot (L : UrlLib) (env : Env) (argv : ScreenshotArgv) : Outcome × List Action :=
  if !env.launchOk then (Outcome.error "launch failed", []) else
  let acts0 := [Action.launch (buildLaunchOptions argv.sandbox), Action.newPage]
  let url := resolveTarget L argv.url
  match viewportStep argv.viewport with
  | none => (Outcome.exit 1, acts0)
  | some viewportActs =>
    let acts1 := acts0 ++ viewportActs
    match cookieStep argv.url argv.cookie with
    | Except.error e => (Outcome.error e, acts1)
    | Except.ok cookieActs =>
      let acts2 := acts1 ++ cookieActs
      if !env.gotoOk then (Outcome.error "navigation failed", acts2) else
      let acts3 := acts2 ++ [Action.goto url (buildNavigationOptions argv.timeout argv.waitUntil)]
      if !env.renderOk then (Outcome.error "render failed", acts3) else
      let acts4 := acts3 ++ [Action.screenshotCap (screenshotOptions argv)]
      if jsTruthyStr argv.output then (Outcome.ok, acts4 ++ [Action.close])
      else if !env.writeOk then (Outcome.error "stdout write failed", acts4)
      else (Outcome.ok, acts4 ++ [Action.writeStdout env.buffer, Action.close])

/-- The `for (const pdf of config)` loop of `bulkPrint` (lines
154-176): per entry, navigate the shared page to the entry's file URL,
render the PDF with `bulkEntryPdfOptions`, sleep 20 ms.  A failed
navigation or render ends the loop with the thrown error. -/
def bulkLoop (L : UrlLib) (env : Env) (argv : BulkArgv) :
    List BatchEntry → Outcome × List Action
  | [] => (Outcome.ok, [])
  | pdf :: rest =>
    if !env.gotoOk then (Outcome.error "navigation failed", []) else
    let a1 := [Action.goto (L.fileUrl pdf.htmlFile)
                 (buildNavigationOptions argv.timeout argv.waitUntil)]
    if !env.renderOk then (Outcome.error "render failed", a1) else
    let r := bulkLoop L env argv rest
    (r.1, a1 ++ [Action.pdf (bulkEntryPdfOptions argv pdf), Action.sleep 20] ++ r.2)

/-- Embeds `async function bulkPrint(argv)` (lines 148-179) as a trace
semantics.  The manifest is read and JSON-parsed before the launch
(lines 149-150), so the model takes the already-parsed `data` array;
then one browser and one page are launched and shared, the loop runs,
and `browser.close()` runs only after a fully successful loop (no
`try`/`finally`). -/
def bulkPrint (L : UrlLib) (env : Env) (argv : BulkArgv) (config : List BatchEntry) :
    Outcome × List Action :=
  if !env.launchOk then (Outcome.error "launch failed", []) else
  let acts0 := [Action.launch (buildLaunchOptions argv.sandbox), Action.newPage]
  let r := bulkLoop L env argv config
  if r.1 = Outcome.ok then (Outcome.ok, acts0 ++ r.2 ++ [Action.close])
  else (r.1, acts0 ++ r.2)

/-! ## Concrete inputs used in witnesses and counterexamples -/

/-- A simple instantiation of the external URL helpers. -/
def urlLib0 : UrlLib :=
  { isUrl := fun s => "http".data.isPrefixOf s.data
    parseUrlToString := fun s => s
    fileUrl := fun s => "file://" ++ s }

/-- Environment where every awaited engine call succeeds. -/
def envOk : Env :=
  { launchOk := true, gotoOk := true, renderOk := true, writeOk := true, buffer := 7 }

/-- Environment where navigation throws. -/
def envGotoFail : Env :=
  { envOk with gotoOk := false }

/-- A `print` invocation with all flags at their defaults and no
output argument. -/
def printArgv0 : PrintArgv :=
  { url := "page.html", output := none, sandbox := false, timeout := 30000,
    waitUntil := "load", cookie := none, background := true, marginTop := "6.25mm",
    marginRight := "6.25mm", marginBottom := "14.11mm", marginLeft := "6.25mm",
    format := "Letter", landscape := false, displayHeaderFooter := false,
    headerTemplate := "", footerTemplate := "" }

/-- A `print` invocation with a non-empty footer template while
`--display-header-footer` stays at its default `false`. -/
def printArgvFooterOnly : PrintArgv :=
  { printArgv0 with output := some "out.pdf", footerTemplate := "<span>footer</span>" }

/-- A `screenshot` invocation with all flags at their defaults and a
viewport spec. -/
def screenshotArgv0 : ScreenshotArgv :=
  { url := "page.html", output := some "out.png", sandbox := false, timeout := 30000,
    waitUntil := "load", cookie := none, fullPage := true, omitBackground := false,
    viewport := some "800x600" }

/-- A `bulk-print` invocation with all flags at their defaults. -/
def bulkArgv0 : BulkArgv :=
  { batchFile := "batch.json", sandbox := false, timeout := 30000, waitUntil := "load",
    cookie := none, background := true, marginTop := "6.25mm", marginRight := "6.25mm",
    marginBottom := "14.11mm", marginLeft := "6.25mm", format := "A4" }

/-- A `bulk-print` invocation with `--no-background`. -/
def bulkArgvNoBackground : BulkArgv :=
  { bulkArgv0 with background := false }

/-- A `screenshot` invocation with `--viewport ""`. -/
def screenshotArgvEmptyViewport : ScreenshotArgv :=
  { screenshotArgv0 with viewport := some "" }

/-- A `screenshot` invocation with the spec's malformed viewport
example `abcx600`. -/
def screenshotArgvBadViewport : ScreenshotArgv :=
  { screenshotArgv0 with viewport := some "abcx600" }

/-- A batch entry with a non-empty footer template. -/
def batchEntry0 : BatchEntry :=
  { htmlFile := "a.html", tmpPDFFile := "a.pdf",
    pdfObject := { isLandscape := false, footerTemplate := "<span/>", footerHeight := "30mm" } }

/-! ## Helper lemmas -/

theorem cookieStep_ok {url : String} {cookie : Option String} {acts : List Action}
    (h : cookieStep url cookie = Except.ok acts) :
    acts = [] ∨ ∃ cs, acts = [Action.setCookie cs] := by
  unfold cookieStep at h
  split at h
  · split at h
    · exact Except.noConfusion h
    · injection h with h
      exact Or.inr ⟨_, h.symm⟩
  · injection h with h
    exact Or.inl h.symm

theorem viewportStep_ok {viewport : Option String} {acts : List Action}
    (h : viewportStep viewport = some acts) :
    acts = [] ∨ ∃ w ht, acts = [Action.setViewport w ht] := by
  unfold viewportStep at h
  split at h
  · split at h
    · exact Option.noConfusion h
    · injection h with h
      exact Or.inr ⟨_, _, h.symm⟩
  · injection h with h
    exact Or.inl h.symm

theorem jsIndexOf_eq_none {c : Char} : ∀ {l : List Char}, jsIndexOf c l = none ↔ c ∉ l := by
  intro l
  induction l with
  | nil => simp [jsIndexOf]
  | cons a as ih =>
    simp only [jsIndexOf, List.mem_cons]
    by_cases h : a = c
    · subst h; simp
    · simp only [if_neg h, Option.map_eq_none', ih]
      constructor
      · rintro hn (rfl | hc)
        · exact h rfl
        · exact hn hc
      · exact fun hn hc => hn (Or.inr hc)

theorem jsIndexOf_split {c : Char} :
    ∀ {l : List Char} {i : Nat}, jsIndexOf c l = some i →
      l.take i ++ c :: l.drop (i + 1) = l ∧ c ∉ l.take i := by
  intro l
  induction l with
  | nil => intro i h; cases h
  | cons a as ih =>
    intro i h
    by_cases hac : a = c
    · subst hac
      rw [jsIndexOf, if_pos rfl] at h
      injection h with h
      subst h
      simp
    · simp only [jsIndexOf, if_neg hac, Option.map_eq_some'] at h
      obtain ⟨j, hj, rfl⟩ := h
      obtain ⟨hsplit, hmem⟩ := ih hj
      refine ⟨?_, ?_⟩
      · simpa [List.take_succ_cons, List.drop_succ_cons] using congrArg (a :: ·) hsplit
      · simp only [List.take_succ_cons, List.mem_cons]
        rintro (rfl | hc)
        · exact hac rfl
        · exact hmem hc

theorem takeWhile_digits (ds : List Char) (sep : Char) (es : List Char)
    (hds : ∀ c ∈ ds, c.isDigit = true) (hsep : sep.isDigit = false) :
    (ds ++ sep :: es).takeWhile (·.isDigit) = ds ∧
    (ds ++ sep :: es).dropWhile (·.isDigit) = sep :: es := by
  induction ds with
  | nil => simp [List.takeWhile, List.dropWhile, hsep]
  | cons a as ih =>
    have ha := hds a (List.mem_cons_self a as)
    have ih' := ih (fun c hc => hds c (List.mem_cons_of_mem a hc))
    simp [List.takeWhile, List.dropWhile, ha, ih'.1, ih'.2]

theorem parseViewport_digits (ds es : List Char) (sep : Char)
    (hds : ds ≠ []) (hes : es ≠ [])
    (hd : ∀ c ∈ ds, c.isDigit = true) (he : ∀ c ∈ es, c.isDigit = true)
    (hsep : sep = 'x' ∨ sep = 'X') :
    parseViewport (ds ++ sep :: es).asString = some (digitsToNat ds, digitsToNat es) := by
  have hsepd : sep.isDigit = false := by rcases hsep with rfl | rfl <;> decide
  have h := takeWhile_digits ds sep es hd hsepd
  have hdata : (List.asString (ds ++ sep :: es)).data = ds ++ sep :: es := rfl
  have hall : es.all (·.isDigit) = true := List.all_eq_true.mpr he
  have hde : ds.isEmpty = false := by simp [List.isEmpty_iff, hds]
  have hee : es.isEmpty = false := by simp [List.isEmpty_iff, hes]
  have hcond : ((sep == 'x' || sep == 'X') && !ds.isEmpty && !es.isEmpty &&
      es.all (·.isDigit)) = true := by
    rcases hsep with rfl | rfl <;> simp [hall, hde, hee]
  simp only [parseViewport, hdata, h.1, h.2]
  simp [hcond]

theorem bulkLoop_actions (L : UrlLib) (env : Env) (argv : BulkArgv) :
    ∀ (config : List BatchEntry) (a : Action), a ∈ (bulkLoop L env argv config).2 →
      (∃ u n, a = Action.goto u n) ∨ (∃ o, a = Action.pdf o) ∨ a = Action.sleep 20 := by
  intro config
  induction config with
  | nil => simp [bulkLoop]
  | cons pdf rest ih =>
    intro a ha
    simp only [bulkLoop] at ha
    split at ha
    · simp at ha
    · split at ha
      · simp only [List.mem_singleton] at ha
        exact Or.inl ⟨_, _, ha⟩
      · simp only [List.append_assoc, List.cons_append, List.mem_cons, List.mem_append,
          List.mem_singleton, List.nil_append] at ha
        rcases ha with rfl | rfl | rfl | hrest
        · exact Or.inl ⟨_, _, rfl⟩
        · exact Or.inr (Or.inl ⟨_, rfl⟩)
        · exact Or.inr (Or.inr rfl)
        · exact ih a hrest

theorem bulkLoop_pdf_opts (L : UrlLib) (env : Env) (argv : BulkArgv) :
    ∀ (config : List BatchEntry) (opts : PdfOptions),
      Action.pdf opts ∈ (bulkLoop L env argv config).2 →
      ∃ pdf ∈ config, opts = bulkEntryPdfOptions argv pdf := by
  intro config
  induction config with
  | nil => simp [bulkLoop]
  | cons pdf rest ih =>
    intro opts h
    simp only [bulkLoop] at h
    split at h
    · simp at h
    · split at h
      · simp at h
      · simp only [List.append_assoc, List.cons_append, List.mem_cons, List.mem_append,
          List.mem_singleton, List.nil_append] at h
        rcases h with h | h | h | h
        · exact absurd h (by simp)
        · injection h with h
          exact ⟨pdf, List.mem_cons_self pdf rest, h⟩
        · exact absurd h (by simp)
        · obtain ⟨q, hq, hopts⟩ := ih opts h
          exact ⟨q, List.mem_cons_of_mem pdf hq, hopts⟩

theorem bulkPrint_pdf_opts (L : UrlLib) (env : Env) (argv : BulkArgv)
    (config : List BatchEntry) (opts : PdfOptions)
    (h : Action.pdf opts ∈ (bulkPrint L env argv config).2) :
    ∃ pdf ∈ config, opts = bulkEntryPdfOptions argv pdf := by
  simp only [bulkPrint] at h
  split at h
  · simp at h
  · split at h
    · simp only [List.append_assoc, List.cons_append, List.mem_cons, List.mem_append,
        List.mem_singleton, List.nil_append] at h
      rcases h with h | h | h | h
      · exact absurd h (by simp)
      · exact absurd h (by simp)
      · exact bulkLoop_pdf_opts L env argv config opts h
      · exact absurd h (by simp)
    · simp only [List.cons_append, List.mem_cons, List.nil_append] at h
      rcases h with h | h | h
      · exact absurd h (by simp)
      · exact absurd h (by simp)
      · exact bulkLoop_pdf_opts L env argv config opts h

theorem print_close_cases (L : UrlLib) (env : Env) (argv : PrintArgv) :
    ((print L env argv).1 = Outcome.ok → Action.close ∈ (print L env argv).2) ∧
    (∀ e, (print L env argv).1 = Outcome.error e → Action.close ∉ (print L env argv).2) := by
  simp only [print]
  split
  · simp
  · split
    · simp
    · rename_i cookieActs hcookie
      rcases cookieStep_ok hcookie with rfl | ⟨cs, rfl⟩ <;>
      · split
        · simp
        · split
          · simp
          · split
            · simp
            · split
              · simp
              · simp

theorem screenshot_close_cases (L : UrlLib) (env : Env) (argv : ScreenshotArgv) :
    ((screenshot L env argv).1 = Outcome.ok → Action.close ∈ (screenshot L env argv).2) ∧
    (∀ e, (screenshot L env argv).1 = Outcome.error e →
      Action.close ∉ (screenshot L env argv).2) ∧
    (∀ c, (screenshot L env argv).1 = Outcome.exit c →
      Action.close ∉ (screenshot L env argv).2) := by
  simp only [screenshot]
  split
  · simp
  · split
    · simp
    · rename_i viewportActs hviewport
      rcases viewportStep_ok hviewport with rfl | ⟨w, ht, rfl⟩ <;>
      · split
        · simp
        · rename_i cookieActs hcookie
          rcases cookieStep_ok hcookie with rfl | ⟨cs, rfl⟩ <;>
          · split
            · simp
            · split
              · simp
              · split
                · simp
                · split
                  · simp
                  · simp

theorem bulkPrint_close_cases (L : UrlLib) (env : Env) (argv : BulkArgv)
    (config : List BatchEntry) :
    ((bulkPrint L env argv config).1 = Outcome.ok →
      Action.close ∈ (bulkPrint L env argv config).2) ∧
    (∀ e, (bulkPrint L env argv config).1 = Outcome.error e →
      Action.close ∉ (bulkPrint L env argv config).2) := by
  simp only [bulkPrint]
  split
  · simp
  · split
    · simp
    · rename_i hne
      constructor
      · intro hok
        exact absurd hok hne
      · intro e _ hmem
        simp only [List.cons_append, List.nil_append, List.mem_cons, List.mem_append] at hmem
        rcases hmem with h | h | h
        · exact Action.noConfusion h
        · exact Action.noConfusion h
        · rcases bulkLoop_actions L env argv config _ h with ⟨u, n, h⟩ | ⟨o, h⟩ | h <;>
            exact Action.noConfusion h

theorem print_goto_url (L : UrlLib) (env : Env) (argv : PrintArgv) (u : String)
    (n : NavigationOptions) (h : Action.goto u n ∈ (print L env argv).2) :
    u = resolveTarget L argv.url := by
  simp only [print] at h
  split at h
  · simp at h
  · split at h
    · simp at h
    · rename_i cookieActs hcookie
      rcases cookieStep_ok hcookie with rfl | ⟨cs, rfl⟩ <;>
      · split at h
        · simp at h
        · split at h
          · simp_all
          · split at h
            · simp_all
            · split at h <;> simp_all

theorem screenshot_goto_url (L : UrlLib) (env : Env) (argv : ScreenshotArgv) (u : String)
    (n : NavigationOptions) (h : Action.goto u n ∈ (screenshot L env argv).2) :
    u = resolveTarget L argv.url := by
  simp only [screenshot] at h
  split at h
  · simp at h
  · split at h
    · simp at h
    · rename_i viewportActs hviewport
      rcases viewportStep_ok hviewport with rfl | ⟨w, ht, rfl⟩ <;>
      · split at h
        · simp at h
        · rename_i cookieActs hcookie
          rcases cookieStep_ok hcookie with rfl | ⟨cs, rfl⟩ <;>
          · split at h
            · simp at h
            · split at h
              · simp_all
              · split at h
                · simp_all
                · split at h <;> simp_all

/-! ## Claims -/

/-- C4: for `sandbox=false` the argument list returned by
`buildLaunchOptions` contains both `--no-sandbox` and
`--disable-setuid-sandbox`; for `sandbox=true` it contains neither. -/
theorem buildLaunchOptions_sandbox_flags :
    "--no-sandbox" ∈ (buildLaunchOptions false).args ∧
    "--disable-setuid-sandbox" ∈ (buildLaunchOptions false).args ∧
    "--no-sandbox" ∉ (buildLaunchOptions true).args ∧
    "--disable-setuid-sandbox" ∉ (buildLaunchOptions true).args := by
  decide

/-- C3: for every cookie string containing at least one `:`,
`buildCookies` splits at the first occurrence — the name is the part
before the first `:` (so it contains no `:` itself) and the value is
everything after it — and scopes the cookie to the navigation target
URL it is given; for a cookie string with no `:`, `buildCookies` fails
with the malformed-cookie error instead of returning a cookie. -/
theorem buildCookies_spec (u s : String) :
    (':' ∈ s.data →
      ∃ n v : String,
        buildCookies u s = Except.ok [{ name := n, value := v, url := u }] ∧
        n ++ ":" ++ v = s ∧ ':' ∉ n.data) ∧
    (':' ∉ s.data → buildCookies u s = Except.error "cookie must contain : delimiter") := by
  constructor
  · intro hmem
    obtain ⟨l⟩ := s
    have hne : jsIndexOf ':' l ≠ none := fun h => (jsIndexOf_eq_none.mp h) hmem
    obtain ⟨i, hi⟩ := Option.ne_none_iff_exists'.mp hne
    obtain ⟨hsplit, hnotin⟩ := jsIndexOf_split hi
    refine ⟨(l.take i).asString, (l.drop (i + 1)).asString, ?_, ?_, ?_⟩
    · simp only [buildCookies, List.mapM_cons, List.mapM_nil]
      rw [hi]
      rfl
    · show String.mk (l.take i ++ [':'] ++ l.drop (i + 1)) = String.mk l
      rw [List.append_assoc, List.singleton_append, hsplit]
    · exact hnotin
  · intro hmem
    obtain ⟨l⟩ := s
    have h : jsIndexOf ':' l = none := jsIndexOf_eq_none.mpr hmem
    simp only [buildCookies, List.mapM_cons, List.mapM_nil]
    rw [h]
    rfl

/-- C1 counterexample: a single-document print invocation with
`--footer-template "<span>footer</span>"` and every other flag at its
default.  The footer template handed to the engine is non-empty, yet
`displayHeaderFooter` is `false` and the bottom margin is the
caller-supplied `14.11mm` — the coupling the claim asserts for the
single-document print operation does not hold. -/
theorem print_footer_coupling_counterexample :
    (printPdfOptions printArgvFooterOnly).footerTemplate ≠ "" ∧
    (printPdfOptions printArgvFooterOnly).displayHeaderFooter = false ∧
    (printPdfOptions printArgvFooterOnly).margin.bottom = "14.11mm" ∧
    printArgvFooterOnly.marginBottom = "14.11mm" := by
  decide

/-- C1 (amended): the footer coupling holds for every batch entry — a
non-empty footer template forces `displayHeaderFooter = true` and
overrides the bottom margin with the entry's `footerHeight`, while an
empty footer template gives `displayHeaderFooter = false` and the
caller-supplied bottom margin.  The single-document print operation
has no such coupling: it passes `displayHeaderFooter` and the bottom
margin straight from its own flags, independent of the footer
template. -/
theorem pdfOptions_footer_coupling (bargv : BulkArgv) (pdf : BatchEntry) (pargv : PrintArgv) :
    (pdf.pdfObject.footerTemplate ≠ "" →
      (bulkEntryPdfOptions bargv pdf).displayHeaderFooter = true ∧
      (bulkEntryPdfOptions bargv pdf).margin.bottom = pdf.pdfObject.footerHeight) ∧
    (pdf.pdfObject.footerTemplate = "" →
      (bulkEntryPdfOptions bargv pdf).displayHeaderFooter = false ∧
      (bulkEntryPdfOptions bargv pdf).margin.bottom = bargv.marginBottom) ∧
    (printPdfOptions pargv).displayHeaderFooter = pargv.displayHeaderFooter ∧
    (printPdfOptions pargv).margin.bottom = pargv.marginBottom := by
  refine ⟨?_, ?_, rfl, rfl⟩
  · intro h
    simp [bulkEntryPdfOptions, h]
  · intro h
    simp [bulkEntryPdfOptions, h]

/-- Witness for C1 (amended) on a batch entry whose footer template is
non-empty. -/
theorem pdfOptions_footer_coupling_witness :
    batchEntry0.pdfObject.footerTemplate ≠ "" ∧
    ((bulkEntryPdfOptions bulkArgv0 batchEntry0).displayHeaderFooter = true ∧
     (bulkEntryPdfOptions bulkArgv0 batchEntry0).margin.bottom = "30mm") :=
  ⟨by decide, (pdfOptions_footer_coupling bulkArgv0 batchEntry0 printArgv0).1 (by decide)⟩

/-- C6 counterexample: with `--no-background` the bulk loop still
hands `printBackground = true` to the engine for the entry, not the
flag's value. -/
theorem bulk_background_counterexample :
    bulkArgvNoBackground.background = false ∧
    (bulkEntryPdfOptions bulkArgvNoBackground batchEntry0).printBackground = true := by
  decide

/-- C6 (amended): every engine PDF render issued by a bulk-print run
carries `printBackground = true` regardless of the `--background`
flag, which the bulk loop ignores (line 165 hardcodes `true`); the
single-document print passes the flag's value through. -/
theorem bulk_printBackground_hardcoded (L : UrlLib) (env : Env) (bargv : BulkArgv)
    (config : List BatchEntry) (opts : PdfOptions) (pargv : PrintArgv) :
    (Action.pdf opts ∈ (bulkPrint L env bargv config).2 → opts.printBackground = true) ∧
    (printPdfOptions pargv).printBackground = pargv.background := by
  refine ⟨?_, rfl⟩
  intro h
  obtain ⟨pdf, _, rfl⟩ := bulkPrint_pdf_opts L env bargv config opts h
  rfl

/-- Witness for C6 (amended): a bulk run over one entry with
`--no-background`; the render action in its trace still carries
`printBackground = true`. -/
theorem bulk_printBackground_hardcoded_witness :
    Action.pdf (bulkEntryPdfOptions bulkArgvNoBackground batchEntry0) ∈
      (bulkPrint urlLib0 envOk bulkArgvNoBackground [batchEntry0]).2 ∧
    (bulkEntryPdfOptions bulkArgvNoBackground batchEntry0).printBackground = true :=
  ⟨by decide,
   (bulk_printBackground_hardcoded urlLib0 envOk bulkArgvNoBackground [batchEntry0]
      (bulkEntryPdfOptions bulkArgvNoBackground batchEntry0) printArgv0).1 (by decide)⟩

/-- C2 counterexample: a print invocation whose navigation throws.
The browser-launch action is in the trace, the navigation error
propagates, and no close action follows — on this exit path the
launched browser is not closed. -/
theorem print_close_skipped_counterexample :
    Action.launch (buildLaunchOptions false) ∈ (print urlLib0 envGotoFail printArgv0).2 ∧
    (print urlLib0 envGotoFail printArgv0).1 = Outcome.error "navigation failed" ∧
    Action.close ∉ (print urlLib0 envGotoFail printArgv0).2 := by
  decide

/-- C2 (amended): in all three operations the browser close runs only
on the fully successful path.  When navigation, render or
output-writing raises after the launch, the handler has no
`try`/`finally`, so the error propagates without the close step; the
screenshot viewport `process.exit(1)` path also skips it. -/
theorem browser_close_on_success_only (L : UrlLib) (env : Env) (pargv : PrintArgv)
    (sargv : ScreenshotArgv) (bargv : BulkArgv) (config : List BatchEntry) :
    ((print L env pargv).1 = Outcome.ok → Action.close ∈ (print L env pargv).2) ∧
    (∀ e, (print L env pargv).1 = Outcome.error e →
      Action.close ∉ (print L env pargv).2) ∧
    ((screenshot L env sargv).1 = Outcome.ok → Action.close ∈ (screenshot L env sargv).2) ∧
    (∀ e, (screenshot L env sargv).1 = Outcome.error e →
      Action.close ∉ (screenshot L env sargv).2) ∧
    (∀ c, (screenshot L env sargv).1 = Outcome.exit c →
      Action.close ∉ (screenshot L env sargv).2) ∧
    ((bulkPrint L env bargv config).1 = Outcome.ok →
      Action.close ∈ (bulkPrint L env bargv config).2) ∧
    (∀ e, (bulkPrint L env bargv config).1 = Outcome.error e →
      Action.close ∉ (bulkPrint L env bargv config).2) :=
  ⟨(print_close_cases L env pargv).1, (print_close_cases L env pargv).2,
   (screenshot_close_cases L env sargv).1, (screenshot_close_cases L env sargv).2.1,
   (screenshot_close_cases L env sargv).2.2,
   (bulkPrint_close_cases L env bargv config).1, (bulkPrint_close_cases L env bargv config).2⟩

/-- Witness for C2 (amended): a fully successful print run does close
the browser. -/
theorem browser_close_on_success_only_witness :
    (print urlLib0 envOk printArgv0).1 = Outcome.ok ∧
    Action.close ∈ (print urlLib0 envOk printArgv0).2 :=
  ⟨by decide,
   (browser_close_on_success_only urlLib0 envOk printArgv0 screenshotArgv0 bulkArgv0
      [batchEntry0]).1 (by decide)⟩

/-- C5 counterexample: `""` is a string that does not match the
viewport pattern, yet a screenshot invocation with `--viewport ""`
does not terminate: the truthiness guard of line 220 treats the empty
string as no viewport at all, and the run completes normally. -/
theorem screenshot_empty_viewport_counterexample :
    parseViewport "" = none ∧
    screenshotArgvEmptyViewport.viewport = some "" ∧
    (screenshot urlLib0 envOk screenshotArgvEmptyViewport).1 = Outcome.ok := by
  decide

/-- C5 (amended): for the screenshot operation with a non-empty
viewport string supplied, `"800x600"` — and any string of decimal
digits, then `x` or `X`, then decimal digits — parses to that width
and height, and the `setViewport` call is the third action of the
trace, before any navigation; any non-empty string failing the pattern
ends the run as `process.exit(1)` right after launch and `newPage`,
bypassing the error-report path.  A supplied empty string is treated
as no viewport: the block is skipped. -/
theorem screenshot_viewport_spec (L : UrlLib) (env : Env) (argv : ScreenshotArgv) (v : String)
    (hv : argv.viewport = some v) (hne : v ≠ "") (hlaunch : env.launchOk = true) :
    parseViewport "800x600" = some (800, 600) ∧
    parseViewport "abcx600" = none ∧
    parseViewport "800" = none ∧
    (∀ ds es : List Char, ∀ sep : Char, ds ≠ [] → es ≠ [] →
      (∀ c ∈ ds, c.isDigit = true) → (∀ c ∈ es, c.isDigit = true) →
      (sep = 'x' ∨ sep = 'X') →
      parseViewport (ds ++ sep :: es).asString = some (digitsToNat ds, digitsToNat es)) ∧
    (∀ w h, parseViewport v = some (w, h) →
      ∃ rest, (screenshot L env argv).2 =
        Action.launch (buildLaunchOptions argv.sandbox) :: Action.newPage ::
          Action.setViewport w h :: rest) ∧
    (parseViewport v = none →
      screenshot L env argv =
        (Outcome.exit 1, [Action.launch (buildLaunchOptions argv.sandbox), Action.newPage])) := by
  refine ⟨by decide, by decide, by decide,
    fun ds es sep h1 h2 h3 h4 h5 => parseViewport_digits ds es sep h1 h2 h3 h4 h5, ?_, ?_⟩
  · intro w h hparse
    have hvs : viewportStep argv.viewport = some [Action.setViewport w h] := by
      simp [viewportStep, hv, jsTruthyStr, hne, hparse]
    simp only [screenshot, hlaunch, Bool.not_true, hvs]
    simp only [Bool.false_eq_true, if_false]
    split
    · exact ⟨_, rfl⟩
    · split
      · exact ⟨_, rfl⟩
      · split
        · exact ⟨_, rfl⟩
        · split
          · exact ⟨_, rfl⟩
          · split
            · exact ⟨_, rfl⟩
            · exact ⟨_, rfl⟩
  · intro hparse
    have hvs : viewportStep argv.viewport = none := by
      simp [viewportStep, hv, jsTruthyStr, hne, hparse]
    simp [screenshot, hlaunch, hvs]

/-- Witness for C5 (amended): the spec's example `800x600` parses to
`{width 800, height 600}` and the corresponding `setViewport 800 600`
is the third trace action of a concrete screenshot run. -/
theorem screenshot_viewport_spec_witness :
    parseViewport "800x600" = some (800, 600) ∧
    ∃ rest, (screenshot urlLib0 envOk screenshotArgv0).2 =
      Action.launch (buildLaunchOptions screenshotArgv0.sandbox) :: Action.newPage ::
        Action.setViewport 800 600 :: rest :=
  ⟨by decide,
   (screenshot_viewport_spec urlLib0 envOk screenshotArgv0 "800x600" rfl (by decide)
      rfl).2.2.2.2.1 800 600 (by decide)⟩

/-- C10: when a screenshot invocation carries a truthy viewport string
that fails the regex, the run ends as `process.exit(1)` with exactly
the launch and `newPage` actions performed: the browser has already
been launched, and no close action ever enters the trace. -/
theorem screenshot_viewport_exit_leaks_browser (L : UrlLib) (env : Env)
    (argv : ScreenshotArgv) (v : String) (hv : argv.viewport = some v) (hne : v ≠ "")
    (hparse : parseViewport v = none) (hlaunch : env.launchOk = true) :
    screenshot L env argv =
      (Outcome.exit 1, [Action.launch (buildLaunchOptions argv.sandbox), Action.newPage]) ∧
    Action.launch (buildLaunchOptions argv.sandbox) ∈ (screenshot L env argv).2 ∧
    Action.close ∉ (screenshot L env argv).2 := by
  have hvs : viewportStep argv.viewport = none := by
    simp [viewportStep, hv, jsTruthyStr, hne, hparse]
  have hmain : screenshot L env argv =
      (Outcome.exit 1, [Action.launch (buildLaunchOptions argv.sandbox), Action.newPage]) := by
    simp [screenshot, hlaunch, hvs]
  refine ⟨hmain, ?_, ?_⟩ <;> rw [hmain] <;> simp

/-- Witness for C10 at the spec's malformed example `abcx600`. -/
theorem screenshot_viewport_exit_leaks_browser_witness :
    screenshot urlLib0 envOk screenshotArgvBadViewport =
      (Outcome.exit 1,
       [Action.launch (buildLaunchOptions screenshotArgvBadViewport.sandbox),
        Action.newPage]) ∧
    Action.launch (buildLaunchOptions screenshotArgvBadViewport.sandbox) ∈
      (screenshot urlLib0 envOk screenshotArgvBadViewport).2 ∧
    Action.close ∉ (screenshot urlLib0 envOk screenshotArgvBadViewport).2 :=
  screenshot_viewport_exit_leaks_browser urlLib0 envOk screenshotArgvBadViewport "abcx600"
    rfl (by decide) (by decide) rfl

/-- C7: the target of `print` and `screenshot` is resolved by the
ternary of lines 184/218 — when `is-url` accepts it, the `url-parse`
round trip is used, otherwise `file-url` — and that resolved string is
exactly what every navigation in the run receives.  The two external
URL libraries are out of scope per the spec and enter through the
contracts the spec assigns them: the absolute-URL round trip is the
identity, and `file-url` yields a `file://`-scheme URL. -/
theorem resolveTarget_spec (L : UrlLib) (t : String)
    (hp : ∀ s, L.isUrl s = true → L.parseUrlToString s = s)
    (hf : ∀ s, ∃ r, L.fileUrl s = "file://" ++ r) :
    (L.isUrl t = true → resolveTarget L t = t) ∧
    (L.isUrl t = false → ∃ r, resolveTarget L t = "file://" ++ r) ∧
    (∀ (env : Env) (pargv : PrintArgv) (u : String) (n : NavigationOptions),
      Action.goto u n ∈ (print L env pargv).2 → u = resolveTarget L pargv.url) ∧
    (∀ (env : Env) (sargv : ScreenshotArgv) (u : String) (n : NavigationOptions),
      Action.goto u n ∈ (screenshot L env sargv).2 → u = resolveTarget L sargv.url) := by
  refine ⟨?_, ?_, fun env pargv u n h => print_goto_url L env pargv u n h,
    fun env sargv u n h => screenshot_goto_url L env sargv u n h⟩
  · intro hu
    simp [resolveTarget, hu, hp t hu]
  · intro hu
    obtain ⟨r, hr⟩ := hf t
    exact ⟨r, by simp [resolveTarget, hu, hr]⟩

/-- Witness for C7: an absolute URL passes through unchanged; a local
path becomes a `file://` URL. -/
theorem resolveTarget_spec_witness :
    (urlLib0.isUrl "https://example.com" = true ∧
      resolveTarget urlLib0 "https://example.com" = "https://example.com") ∧
    (urlLib0.isUrl "page.html" = false ∧
      ∃ r, resolveTarget urlLib0 "page.html" = "file://" ++ r) :=
  ⟨⟨by decide,
    (resolveTarget_spec urlLib0 "https://example.com" (fun _ _ => rfl)
      (fun s => ⟨s, rfl⟩)).1 (by decide)⟩,
   ⟨by decide,
    (resolveTarget_spec urlLib0 "page.html" (fun _ _ => rfl)
      (fun s => ⟨s, rfl⟩)).2.1 (by decide)⟩⟩

/-- C8: in every successfully completing print run, the engine's
`page.pdf` call carries `path = none` when no output argument was
given — so the engine creates no file — and the returned buffer is
written to standard output; when a (non-empty) output path was given,
the `page.pdf` call carries that path and nothing is written to
standard output. -/
theorem print_output_routing (L : UrlLib) (env : Env) (argv : PrintArgv)
    (hok : (print L env argv).1 = Outcome.ok) :
    Action.pdf (printPdfOptions argv) ∈ (print L env argv).2 ∧
    (argv.output = none ∨ argv.output = some "" →
      (printPdfOptions argv).path = none ∧
      Action.writeStdout env.buffer ∈ (print L env argv).2) ∧
    (∀ p, argv.output = some p → p ≠ "" →
      (printPdfOptions argv).path = some p ∧
      ∀ b, Action.writeStdout b ∉ (print L env argv).2) := by
  revert hok
  simp only [print]
  split
  · intro hok; exact absurd hok (by simp)
  · split
    · intro hok; exact absurd hok (by simp)
    · rename_i cookieActs hcookie
      rcases cookieStep_ok hcookie with rfl | ⟨cs, rfl⟩ <;>
      · split
        · intro hok; exact absurd hok (by simp)
        · split
          · intro hok; exact absurd hok (by simp)
          · split
            · rename_i hout
              intro _
              refine ⟨by simp, ?_, ?_⟩
              · rintro (hcase | hcase) <;> simp [jsTruthyStr, hcase] at hout
              · intro p hp hpne
                refine ⟨by simp [printPdfOptions, jsOrNull, jsTruthyStr, hp, hpne], ?_⟩
                intro b hmem
                simp at hmem
            · split
              · intro hok; exact absurd hok (by simp)
              · rename_i hout _
                intro _
                refine ⟨by simp, ?_, ?_⟩
                · rintro (hcase | hcase) <;>
                    exact ⟨by simp [printPdfOptions, jsOrNull, jsTruthyStr, hcase], by simp⟩
                · intro p hp hpne
                  rw [hp] at hout
                  simp [jsTruthyStr, hpne] at hout

/-- Witness for C8: a successful print run with no output argument
writes the rendered buffer to standard output and asks the engine for
no file. -/
theorem print_output_routing_witness :
    (print urlLib0 envOk printArgv0).1 = Outcome.ok ∧
    ((printPdfOptions printArgv0).path = none ∧
     Action.writeStdout 7 ∈ (print urlLib0 envOk printArgv0).2) :=
  ⟨by decide, (print_output_routing urlLib0 envOk printArgv0 (by decide)).2.1 (Or.inl rfl)⟩

/-- C9: the `bulk-print` command's flag schema accepts `--cookie`
(the builder spreads the common options), but no bulk-print run ever
performs a cookie-setting step, whatever the supplied cookie string:
the batch loop navigates, renders and sleeps only. -/
theorem bulk_cookie_accepted_never_injected :
    "cookie" ∈ bulkPrintOptionNames ∧
    ∀ (L : UrlLib) (env : Env) (argv : BulkArgv) (config : List BatchEntry)
      (cs : List Cookie), Action.setCookie cs ∉ (bulkPrint L env argv config).2 := by
  refine ⟨by decide, ?_⟩
  intro L env argv config cs hmem
  have hloop : Action.setCookie cs ∉ (bulkLoop L env argv config).2 := by
    intro h
    rcases bulkLoop_actions L env argv config _ h with ⟨u, n, h⟩ | ⟨o, h⟩ | h <;>
      exact Action.noConfusion h
  simp only [bulkPrint] at hmem
  split at hmem
  · simp at hmem
  · split at hmem <;>
    · simp at hmem
      exact hloop hmem

/-- Witness for C9: even with a cookie flag supplied, a concrete bulk
run's trace contains no cookie-setting step. -/
theorem bulk_cookie_accepted_never_injected_witness :
    Action.setCookie [{ name := "k", value := "v", url := "u" }] ∉
      (bulkPrint urlLib0 envOk { bulkArgv0 with cookie := some "k:v" } [batchEntry0]).2 :=
  bulk_cookie_accepted_never_injected.2 urlLib0 envOk
    { bulkArgv0 with cookie := some "k:v" } [batchEntry0]
    [{ name := "k", value := "v", url := "u" }]

/-- Witness for C3 at the spec's own example `"a:b:c"`. -/
theorem buildCookies_spec_witness :
    ':' ∈ "a:b:c".data ∧
    ∃ n v : String,
      buildCookies "http://example.com" "a:b:c" =
        Except.ok [{ name := n, value := v, url := "http://example.com" }] ∧
      n ++ ":" ++ v = "a:b:c" ∧ ':' ∉ n.data :=
  ⟨by decide, (buildCookies_spec "http://example.com" "a:b:c").1 (by decide)⟩

end PuppeteerCli
